import Mathlib

/-!
# kvmsample: a shallow embedding of `main.c`

The C program drives the Linux KVM device: it creates a VM, maps guest memory,
creates vCPUs, resets their registers and runs each one in an exit-dispatch loop.

Modelling conventions.

* Every system call the program makes is recorded, in program order, as an
  `Event` carrying the arguments the call was made with.  What the kernel
  answers is an input of the model (an `…Env` record), so every theorem holds
  for every behaviour of the kernel.
* C integers are `Int` (for `int`) or `Nat` (for the unsigned `__u16`, `__u32`,
  `__u64`, `size_t`, pointers); each assignment into a narrower or unsigned
  field is written with its explicit reduction modulo `2 ^ w`.
* `exit(1)` ends the whole process; a function that calls it does not return.
  This is the `Outcome.exited` constructor.
-/

namespace KvmSample

/-! ## Constants -/

/-- The `RAM_SIZE` constant of `main.c` line 17. -/
def RAM_SIZE : Int := 512000000

/-- The `CODE_START` constant of `main.c` line 18. -/
def CODE_START : Nat := 0x10000

/-- Exit reason `KVM_EXIT_UNKNOWN` of `<linux/kvm.h>`. -/
def KVM_EXIT_UNKNOWN : Nat := 0
/-- Exit reason `KVM_EXIT_IO` of `<linux/kvm.h>`. -/
def KVM_EXIT_IO : Nat := 2
/-- Exit reason `KVM_EXIT_DEBUG` of `<linux/kvm.h>`. -/
def KVM_EXIT_DEBUG : Nat := 4
/-- Exit reason `KVM_EXIT_MMIO` of `<linux/kvm.h>`. -/
def KVM_EXIT_MMIO : Nat := 6
/-- Exit reason `KVM_EXIT_SHUTDOWN` of `<linux/kvm.h>`. -/
def KVM_EXIT_SHUTDOWN : Nat := 8
/-- Exit reason `KVM_EXIT_INTR` of `<linux/kvm.h>`. -/
def KVM_EXIT_INTR : Nat := 10

/-- The value `MAP_FAILED`, that is `(void *) -1`, as a 64-bit address. -/
def MAP_FAILED : Nat := 2 ^ 64 - 1

/-- Conversion of a C `int` to `__u64` / `size_t` (value modulo `2 ^ 64`). -/
def to_u64 (x : Int) : Nat := (x % 2 ^ 64).toNat

/-- Conversion of an unsigned value to `__u16` (value modulo `2 ^ 16`). -/
def to_u16 (x : Nat) : Nat := x % 2 ^ 16

/-! ## Data model -/

/-- The `struct kvm_segment` of `<linux/kvm.h>`: `base` is `__u64`, `limit` is
`__u32`, `selector` is `__u16`, the remaining attribute fields are `__u8`. -/
structure kvm_segment where
  base : Nat
  limit : Nat
  selector : Nat
  type : Nat
  present : Nat
  dpl : Nat
  db : Nat
  s : Nat
  l : Nat
  g : Nat
  avl : Nat
  unusable : Nat
  deriving DecidableEq, Repr, Inhabited

/-- The `struct kvm_dtable` of `<linux/kvm.h>`. -/
structure kvm_dtable where
  base : Nat
  limit : Nat
  deriving DecidableEq, Repr, Inhabited

/-- The `struct kvm_sregs` of `<linux/kvm.h>` (segment and system registers). -/
structure kvm_sregs where
  cs : kvm_segment
  ds : kvm_segment
  es : kvm_segment
  fs : kvm_segment
  gs : kvm_segment
  ss : kvm_segment
  tr : kvm_segment
  ldt : kvm_segment
  gdt : kvm_dtable
  idt : kvm_dtable
  cr0 : Nat
  cr2 : Nat
  cr3 : Nat
  cr4 : Nat
  cr8 : Nat
  efer : Nat
  apic_base : Nat
  interrupt_bitmap : List Nat
  deriving DecidableEq, Repr, Inhabited

/-- The `struct kvm_regs` of `<linux/kvm.h>` (general registers, all `__u64`). -/
structure kvm_regs where
  rax : Nat
  rbx : Nat
  rcx : Nat
  rdx : Nat
  rsi : Nat
  rdi : Nat
  rsp : Nat
  rbp : Nat
  r8 : Nat
  r9 : Nat
  r10 : Nat
  r11 : Nat
  r12 : Nat
  r13 : Nat
  r14 : Nat
  r15 : Nat
  rip : Nat
  rflags : Nat
  deriving DecidableEq, Repr, Inhabited

/-- The `struct kvm_userspace_memory_region` of `<linux/kvm.h>`. -/
structure kvm_userspace_memory_region where
  slot : Nat
  flags : Nat
  guest_phys_addr : Nat
  memory_size : Nat
  userspace_addr : Nat
  deriving DecidableEq, Repr, Inhabited

/-- The `struct vcpu` of `main.c` lines 33-43.  Pointers (`kvm_run`,
`vcpu_thread_func`, `kvm`) are kept as addresses. -/
structure vcpu where
  vcpu_id : Int
  vcpu_fd : Int
  vcpu_thread : Nat
  kvm_run : Nat
  kvm_run_mmap_size : Int
  regs : kvm_regs
  sregs : kvm_sregs
  vcpu_thread_func : Nat
  kvm : Nat
  deriving DecidableEq, Repr, Inhabited

/-- The `struct kvm` of `main.c` lines 21-31.  The field `vcpus` holds the
contents of the array the C pointer refers to (empty for `NULL`). -/
structure kvm where
  dev_fd : Int
  vm_fd : Int
  ram_size : Nat
  ram_start : Nat
  kvm_version : Int
  mem : kvm_userspace_memory_region
  vcpus : List vcpu
  vcpu_number : Int
  deriving DecidableEq, Repr, Inhabited

/-! ## Effects -/

/-- One externally visible action of the program, with the arguments of the call. -/
inductive Event where
  | ioctl_KVM_GET_SREGS (fd : Int)
  | ioctl_KVM_SET_SREGS (fd : Int) (sregs : kvm_sregs)
  | ioctl_KVM_SET_REGS (fd : Int) (regs : kvm_regs)
  | ioctl_KVM_RUN (fd : Int)
  | ioctl_KVM_CREATE_VM (fd : Int)
  | ioctl_KVM_SET_USER_MEMORY_REGION (fd : Int) (mem : kvm_userspace_memory_region)
  | ioctl_KVM_CREATE_VCPU (fd : Int) (id : Int)
  | ioctl_KVM_GET_VCPU_MMAP_SIZE (fd : Int)
  | mmap (length : Nat) (fd : Int)
  | munmap (addr : Nat) (length : Nat)
  | close (fd : Int)
  | open_ (path : String)
  | read (fd : Int) (buf : Nat) (count : Nat)
  | store (addr : Nat) (bytes : List Nat)
  | malloc
  | free
  | sleep (seconds : Nat)
  | perror (msg : String)
  | printf (fmt : String) (args : List Int)
  | fprintf_stderr (msg : String)
  | exit (status : Int)
  deriving DecidableEq, Repr

/-- How a call of a C function ends: it returns a value, or it calls `exit`
(which ends the whole process, not only the calling thread), or an `assert`
fails, or it is still inside a blocking call when the recorded kernel answers
run out. -/
inductive Outcome (α : Type) where
  | returned (a : α)
  | exited (status : Int)
  | aborted
  | pending
  deriving DecidableEq, Repr

/-! ## `kvm_reset_vcpu` (lines 45-77) -/

/-- What the kernel answers to the three ioctls of `kvm_reset_vcpu`:
`get_sregs_out` is the register state `KVM_GET_SREGS` stores on success. -/
structure ResetEnv where
  get_sregs_ret : Int
  get_sregs_out : kvm_sregs
  set_sregs_ret : Int
  set_regs_ret : Int
  deriving DecidableEq, Repr, Inhabited

/-- The assignments of lines 51-61 on the `sregs` snapshot.  The `selector`
field is `__u16`, the `base` field is `__u64`.  Line 61 assigns `gs.selector`;
there is no assignment of `gs.base`. -/
def reset_sregs (s : kvm_sregs) : kvm_sregs :=
  let s := { s with cs := { s.cs with selector := to_u16 CODE_START } }
  let s := { s with cs := { s.cs with base := (CODE_START * 16) % 2 ^ 64 } }
  let s := { s with ss := { s.ss with selector := to_u16 CODE_START } }
  let s := { s with ss := { s.ss with base := (CODE_START * 16) % 2 ^ 64 } }
  let s := { s with ds := { s.ds with selector := to_u16 CODE_START } }
  let s := { s with ds := { s.ds with base := (CODE_START * 16) % 2 ^ 64 } }
  let s := { s with es := { s.es with selector := to_u16 CODE_START } }
  let s := { s with es := { s.es with base := (CODE_START * 16) % 2 ^ 64 } }
  let s := { s with fs := { s.fs with selector := to_u16 CODE_START } }
  let s := { s with fs := { s.fs with base := (CODE_START * 16) % 2 ^ 64 } }
  let s := { s with gs := { s.gs with selector := to_u16 CODE_START } }
  s

/-- The assignments of lines 68-71 on the `regs` snapshot. -/
def reset_regs (r : kvm_regs) : kvm_regs :=
  let r := { r with rflags := 0x0000000000000002 }
  let r := { r with rip := 0 }
  let r := { r with rsp := 0xffffffff }
  let r := { r with rbp := 0 }
  r

/-- The function `kvm_reset_vcpu`: the updated `struct vcpu` when it returns,
and the calls it made. -/
def kvm_reset_vcpu (v : vcpu) (env : ResetEnv) : Outcome vcpu × List Event :=
  let t := [Event.ioctl_KVM_GET_SREGS v.vcpu_fd]
  if env.get_sregs_ret < 0 then
    (Outcome.exited 1, t ++ [Event.perror "can not get sregs\n", Event.exit 1])
  else
    let v := { v with sregs := env.get_sregs_out }
    let v := { v with sregs := reset_sregs v.sregs }
    let t := t ++ [Event.ioctl_KVM_SET_SREGS v.vcpu_fd v.sregs]
    if env.set_sregs_ret < 0 then
      (Outcome.exited 1, t ++ [Event.perror "can not set sregs", Event.exit 1])
    else
      let v := { v with regs := reset_regs v.regs }
      let t := t ++ [Event.ioctl_KVM_SET_REGS v.vcpu_fd v.regs]
      if env.set_regs_ret < 0 then
        (Outcome.exited 1, t ++ [Event.perror "KVM SET REGS\n", Event.exit 1])
      else
        (Outcome.returned v, t)

/-- The `struct kvm_sregs` values handed to `KVM_SET_SREGS` in a run. -/
def sregs_written : List Event → List kvm_sregs
  | [] => []
  | Event.ioctl_KVM_SET_SREGS _ s :: t => s :: sregs_written t
  | _ :: t => sregs_written t

/-- The `struct kvm_regs` values handed to `KVM_SET_REGS` in a run. -/
def regs_written : List Event → List kvm_regs
  | [] => []
  | Event.ioctl_KVM_SET_REGS _ r :: t => r :: regs_written t
  | _ :: t => regs_written t

/-! ## `kvm_cpu_thread` (lines 79-127) -/

/-- What one `KVM_RUN` call answers: its return value and what the control page
(`struct kvm_run`) then holds.  `exit_reason` is `__u32`, `io_port` is `__u16`,
`io_data_offset` is `__u64`; `page_int off` is the `int` found `off` bytes into
the control page. -/
structure RunEnv where
  ret : Int
  exit_reason : Nat
  io_port : Nat
  io_data_offset : Nat
  page_int : Nat → Int

/-- Where control goes after the `switch`: `break` reaches the end of the loop
body and the loop goes round again; `goto exit_kvm` leaves the loop. -/
inductive Flow where
  | resume
  | leave
  deriving DecidableEq, Repr

/-- The `switch (vcpu->kvm_run->exit_reason)` of lines 93-122. -/
def exit_dispatch (v : vcpu) (r : RunEnv) : Flow × List Event :=
  if r.exit_reason = KVM_EXIT_UNKNOWN then
    (Flow.resume, [Event.printf "KVM_EXIT_UNKNOWN\n" []])
  else if r.exit_reason = KVM_EXIT_DEBUG then
    (Flow.resume, [Event.printf "KVM_EXIT_DEBUG\n" []])
  else if r.exit_reason = KVM_EXIT_IO then
    (Flow.resume,
      [Event.printf "KVM_EXIT_IO\n" [],
       Event.printf "cpu %d, out port: %d, data: %d\n"
         [v.vcpu_id, (r.io_port : Int), r.page_int r.io_data_offset],
       Event.sleep 1])
  else if r.exit_reason = KVM_EXIT_MMIO then
    (Flow.resume, [Event.printf "KVM_EXIT_MMIO\n" []])
  else if r.exit_reason = KVM_EXIT_INTR then
    (Flow.resume, [Event.printf "KVM_EXIT_INTR\n" []])
  else if r.exit_reason = KVM_EXIT_SHUTDOWN then
    (Flow.leave, [Event.printf "KVM_EXIT_SHUTDOWN\n" []])
  else
    (Flow.leave, [Event.printf "KVM PANIC\n" []])

/-- The `while (1)` loop of lines 84-123, run against a finite list of
`KVM_RUN` answers.  When the list is used up the thread is blocked in `KVM_RUN`. -/
def kvm_cpu_thread_loop (v : vcpu) : List RunEnv → Outcome Nat × List Event
  | [] =>
    (Outcome.pending,
      [Event.printf "KVM start run at cpu %d\n" [v.vcpu_id], Event.ioctl_KVM_RUN v.vcpu_fd])
  | r :: rest =>
    let t := [Event.printf "KVM start run at cpu %d\n" [v.vcpu_id], Event.ioctl_KVM_RUN v.vcpu_fd]
    if r.ret < 0 then
      (Outcome.exited 1, t ++ [Event.fprintf_stderr "KVM_RUN failed\n", Event.exit 1])
    else
      match exit_dispatch v r with
      | (Flow.resume, e) =>
        let next := kvm_cpu_thread_loop v rest
        (next.1, t ++ e ++ next.2)
      | (Flow.leave, e) => (Outcome.returned 0, t ++ e)

/-- The thread function `kvm_cpu_thread`: reset, then the run loop.  It returns
the null pointer (`return 0`). -/
def kvm_cpu_thread (v : vcpu) (renv : ResetEnv) (runs : List RunEnv) :
    Outcome Nat × List Event :=
  match kvm_reset_vcpu v renv with
  | (Outcome.returned v, t) =>
    let rest := kvm_cpu_thread_loop v runs
    (rest.1, t ++ rest.2)
  | (Outcome.exited status, t) => (Outcome.exited status, t)
  | (Outcome.aborted, t) => (Outcome.aborted, t)
  | (Outcome.pending, t) => (Outcome.pending, t)

/-! ## `load_binary` (lines 129-148) -/

/-- What the kernel answers to `load_binary`: the result of `open`, and the data
delivered by the successive `read` calls (a call that delivers nothing, or a
call after the last recorded one, returns a value `<= 0`). -/
structure LoadEnv where
  open_ret : Int
  reads : List (List Nat)
  deriving DecidableEq, Repr, Inhabited

/-- The `while (1)` loop of lines 140-147: `p` is the current write pointer. -/
def load_binary_loop (fd : Int) : Nat → List (List Nat) → List Event
  | p, [] => [Event.read fd p 4096]
  | p, chunk :: rest =>
    let data := chunk.take 4096
    let ret := data.length
    if ret = 0 then
      [Event.read fd p 4096]
    else
      [Event.read fd p 4096, Event.store p data, Event.printf "read size: %d\n" [(ret : Int)]]
        ++ load_binary_loop fd (p + ret) rest

/-- The function `load_binary`. -/
def load_binary (k : kvm) (env : LoadEnv) : Outcome Unit × List Event :=
  let fd := env.open_ret
  let t := [Event.open_ "test.bin"]
  if fd < 0 then
    (Outcome.exited 1, t ++ [Event.fprintf_stderr "can not open binary file\n", Event.exit 1])
  else
    let p := k.ram_start
    (Outcome.returned (), t ++ load_binary_loop fd p env.reads)

/-- The host address of the first byte a run stored into memory. -/
def first_store : List Event → Option Nat
  | [] => none
  | Event.store addr _ :: _ => some addr
  | _ :: t => first_store t

/-- The guest-physical address that the registered region gives a host address. -/
def guest_phys_of (mem : kvm_userspace_memory_region) (host : Nat) : Option Nat :=
  if mem.userspace_addr ≤ host ∧ host < mem.userspace_addr + mem.memory_size then
    some (mem.guest_phys_addr + (host - mem.userspace_addr))
  else
    none

/-! ## `kvm_create_vm` (lines 170-202) -/

/-- What the kernel answers to the calls of `kvm_create_vm`. -/
structure CreateVmEnv where
  create_vm_ret : Int
  mmap_ret : Nat
  set_region_ret : Int
  deriving DecidableEq, Repr, Inhabited

/-- The function `kvm_create_vm`: its return value, the updated `struct kvm`
and the calls it made. -/
def kvm_create_vm (k : kvm) (ram_size : Int) (env : CreateVmEnv) : Int × kvm × List Event :=
  let t := [Event.ioctl_KVM_CREATE_VM k.dev_fd]
  let k := { k with vm_fd := env.create_vm_ret }
  if k.vm_fd < 0 then
    (-1, k, t ++ [Event.perror "can not create vm"])
  else
    let k := { k with ram_size := to_u64 ram_size }
    let t := t ++ [Event.mmap k.ram_size (-1)]
    let k := { k with ram_start := env.mmap_ret }
    if k.ram_start = MAP_FAILED then
      (-1, k, t ++ [Event.perror "can not mmap ram"])
    else
      let k := { k with mem := { k.mem with slot := 0 } }
      let k := { k with mem := { k.mem with guest_phys_addr := 0 } }
      let k := { k with mem := { k.mem with memory_size := k.ram_size } }
      let k := { k with mem := { k.mem with userspace_addr := k.ram_start } }
      let t := t ++ [Event.ioctl_KVM_SET_USER_MEMORY_REGION k.vm_fd k.mem]
      let ret := env.set_region_ret
      if ret < 0 then
        (ret, k, t ++ [Event.perror "can not set user memory region"])
      else
        (ret, k, t)

/-- The region descriptors handed to `KVM_SET_USER_MEMORY_REGION` in a run. -/
def regions_registered : List Event → List kvm_userspace_memory_region
  | [] => []
  | Event.ioctl_KVM_SET_USER_MEMORY_REGION _ m :: t => m :: regions_registered t
  | _ :: t => regions_registered t

/-- Whether an event releases a resource (`close` or `munmap`). -/
def is_release : Event → Bool
  | Event.close _ => true
  | Event.munmap _ _ => true
  | _ => false

/-! ## `kvm_clean_vcpus`, `kvm_clean_vm` (lines 204-216) -/

/-- The `for` loop of `kvm_clean_vcpus`, from index `i` with `remaining`
iterations to go (`remaining = vcpu_number - i`).  Reading `vcpus[i]` beyond the
array is undefined behaviour (`none`). -/
def kvm_clean_vcpus_loop (vcpus : List vcpu) : Nat → Nat → Option (List Event)
  | _, 0 => some []
  | i, remaining + 1 =>
    match vcpus[i]? with
    | none => none
    | some v =>
      match kvm_clean_vcpus_loop vcpus (i + 1) remaining with
      | none => none
      | some t =>
        some ([Event.munmap v.kvm_run (to_u64 v.kvm_run_mmap_size), Event.close v.vcpu_fd] ++ t)

/-- The function `kvm_clean_vcpus`. -/
def kvm_clean_vcpus (k : kvm) : Option (List Event) :=
  kvm_clean_vcpus_loop k.vcpus 0 k.vcpu_number.toNat

/-- The function `kvm_clean_vm`. -/
def kvm_clean_vm (k : kvm) : Option (List Event) :=
  let t := [Event.close k.vm_fd]
  let t := t ++ [Event.munmap k.ram_start k.ram_size]
  match kvm_clean_vcpus k with
  | none => none
  | some t2 => some (t ++ t2)

/-! ## `kvm_init_vcpus` (lines 218-261) -/

/-- What the kernel answers while vCPU `i` is created: the results of
`KVM_CREATE_VCPU`, of `KVM_GET_VCPU_MMAP_SIZE` and of `mmap`. -/
structure VcpuEnv where
  create_vcpu_ret : Int
  mmap_size_ret : Int
  mmap_ret : Nat
  deriving DecidableEq, Repr, Inhabited

/-- Assignment to `vcpus[i]`. -/
def array_set (vcpus : Nat → vcpu) (i : Nat) (v : vcpu) : Nat → vcpu :=
  fun j => if j = i then v else vcpus j

/-- The `for (j = 0; j < i; j++)` loop of lines 254-257, from index `j` with
`remaining` iterations to go.  The length given to `munmap` is read from
`vcpus[i]`. -/
def kvm_init_vcpus_unwind (vcpus : Nat → vcpu) (i : Nat) : Nat → Nat → List Event
  | _, 0 => []
  | j, remaining + 1 =>
    [Event.munmap (vcpus j).kvm_run (to_u64 (vcpus i).kvm_run_mmap_size),
     Event.close (vcpus j).vcpu_fd]
      ++ kvm_init_vcpus_unwind vcpus i (j + 1) remaining

/-- The code from the label `create_failed` (line 253) to the `return NULL`. -/
def create_failed (vcpus : Nat → vcpu) (i : Nat) : List Event :=
  kvm_init_vcpus_unwind vcpus i 0 i
    ++ [Event.perror "can not initialize all vcpus", Event.free]

/-- The code from the label `kvm_run_failed` (line 251): it falls through to
`create_failed`. -/
def kvm_run_failed (vcpus : Nat → vcpu) (i : Nat) : List Event :=
  [Event.close (vcpus i).vcpu_fd] ++ create_failed vcpus i

/-- The `for` loop of lines 223-248, from index `i` with `remaining` iterations
to go; `n` is `vcpu_number`.  The result is `none` for `return NULL`. -/
def kvm_init_vcpus_loop (k : kvm) (kvm_ptr fn : Nat) (env : Nat → VcpuEnv) (n : Nat) :
    (Nat → vcpu) → Nat → Nat → Option (List vcpu) × List Event
  | vcpus, _, 0 => (some ((List.range n).map vcpus), [])
  | vcpus, i, remaining + 1 =>
    let vcpus := array_set vcpus i { vcpus i with vcpu_id := (i : Int) }
    let t := [Event.ioctl_KVM_CREATE_VCPU k.vm_fd (vcpus i).vcpu_id]
    let vcpus := array_set vcpus i { vcpus i with vcpu_fd := (env i).create_vcpu_ret }
    if (vcpus i).vcpu_fd < 0 then
      (none, t ++ [Event.perror "can not create vcpu"] ++ create_failed vcpus i)
    else
      let t := t ++ [Event.ioctl_KVM_GET_VCPU_MMAP_SIZE k.dev_fd]
      let vcpus := array_set vcpus i { vcpus i with kvm_run_mmap_size := (env i).mmap_size_ret }
      if (vcpus i).kvm_run_mmap_size < 0 then
        (none, t ++ [Event.perror "can not get vcpu mmsize"] ++ kvm_run_failed vcpus i)
      else
        let t := t ++ [Event.mmap (to_u64 (vcpus i).kvm_run_mmap_size) (vcpus i).vcpu_fd]
        let vcpus := array_set vcpus i { vcpus i with kvm_run := (env i).mmap_ret }
        if (vcpus i).kvm_run = MAP_FAILED then
          (none, t ++ [Event.perror "can not mmap kvm_run"] ++ kvm_run_failed vcpus i)
        else
          let vcpus := array_set vcpus i { vcpus i with vcpu_thread_func := fn }
          let vcpus := array_set vcpus i { vcpus i with kvm := kvm_ptr }
          let next := kvm_init_vcpus_loop k kvm_ptr fn env n vcpus (i + 1) remaining
          (next.1, t ++ next.2)

/-- The function `kvm_init_vcpus`.  `kvm_ptr` is the address of `*kvm`, `fn` the
thread function, `heap i` what the fresh `malloc` block holds at index `i`. -/
def kvm_init_vcpus (k : kvm) (kvm_ptr fn : Nat) (heap : Nat → vcpu) (env : Nat → VcpuEnv) :
    Outcome (Option (List vcpu)) × List Event :=
  if ¬ (k.vcpu_number > 0) then
    (Outcome.aborted, [])
  else
    let t := [Event.malloc]
    let r := kvm_init_vcpus_loop k kvm_ptr fn env k.vcpu_number.toNat heap 0 k.vcpu_number.toNat
    (Outcome.returned r.1, t ++ r.2)

/-! ## Sample inputs -/

/-- A register-free `struct kvm_sregs`: every field zero. -/
def sregs_zero : kvm_sregs := default

/-- A sample vCPU: id 0, descriptor 5, control page at `0x7f0000000000`. -/
def vcpu_sample : vcpu :=
  { (default : vcpu) with vcpu_id := 0, vcpu_fd := 5, kvm_run := 0x7f0000000000,
                          kvm_run_mmap_size := 12288 }

/-- A second sample vCPU: id 3, descriptor 9, non-zero registers. -/
def vcpu_other : vcpu :=
  { (default : vcpu) with vcpu_id := 3, vcpu_fd := 9, kvm_run := 0x7f0000004000,
                          kvm_run_mmap_size := 12288,
                          regs := { (default : kvm_regs) with rip := 0xfff0, rsp := 7, rbp := 9 } }

/-- Kernel answers under which every ioctl of `kvm_reset_vcpu` succeeds. -/
def reset_ok : ResetEnv :=
  { get_sregs_ret := 0, get_sregs_out := sregs_zero, set_sregs_ret := 0, set_regs_ret := 0 }

/-- A successful `KVM_RUN` whose control page reports `reason`. -/
def run_exit (reason : Nat) : RunEnv :=
  { ret := 0, exit_reason := reason, io_port := 0x3f8, io_data_offset := 4096,
    page_int := fun _ => 72 }

/-- The segment state of an x86 vCPU right after creation, as `KVM_GET_SREGS` reports it:
`cs` has selector `0xf000` and base `0xffff0000`, the other segments have selector and base 0. -/
def sregs_power_on : kvm_sregs :=
  { (default : kvm_sregs) with
      cs := { (default : kvm_segment) with selector := 0xf000, base := 0xffff0000,
                                           limit := 0xffff },
      cr0 := 0x60000010 }

/-- Kernel answers under which every ioctl of `kvm_reset_vcpu` succeeds and `KVM_GET_SREGS`
reports the power-on segment state. -/
def reset_power_on : ResetEnv :=
  { get_sregs_ret := 0, get_sregs_out := sregs_power_on, set_sregs_ret := 0, set_regs_ret := 0 }

/-- Kernel answers under which `KVM_GET_SREGS` fails. -/
def reset_get_fails : ResetEnv :=
  { get_sregs_ret := -1, get_sregs_out := sregs_zero, set_sregs_ret := 0, set_regs_ret := 0 }

/-- A `KVM_RUN` call that fails. -/
def run_fails : RunEnv :=
  { ret := -1, exit_reason := 0, io_port := 0, io_data_offset := 0, page_int := fun _ => 0 }

/-- The interrupt-enable flag IF of an `rflags` value: bit 9, mask `0x200`. -/
def interrupt_flag (rflags : Nat) : Bool := rflags &&& 0x200 != 0

/-- The `struct kvm` as `kvm_init` leaves it: device descriptor 3, API version 12. -/
def kvm_fresh : kvm :=
  { (default : kvm) with dev_fd := 3, kvm_version := 12 }

/-- Kernel answers under which every call of `kvm_create_vm` succeeds: VM descriptor 4,
mapping at `0x7f1000000000`. -/
def create_vm_ok : CreateVmEnv :=
  { create_vm_ret := 4, mmap_ret := 0x7f1000000000, set_region_ret := 0 }

/-- A guest image of four bytes, delivered by a single `read`. -/
def load_ok : LoadEnv :=
  { open_ret := 7, reads := [[0xb0, 0x48, 0xe6, 0x10]] }

/-- A `struct kvm` after `kvm_create_vm` and `kvm_init_vcpus` with one vCPU. -/
def kvm_one : kvm :=
  { (default : kvm) with dev_fd := 3, vm_fd := 4, ram_size := 512000000,
                         ram_start := 0x7f1000000000, vcpus := [vcpu_sample], vcpu_number := 1 }

/-- A `struct kvm` after `kvm_create_vm` with no vCPU. -/
def kvm_none : kvm :=
  { (default : kvm) with dev_fd := 3, vm_fd := 4, ram_size := 512000000,
                         ram_start := 0x7f1000000000, vcpus := [], vcpu_number := 0 }

/-- A `struct kvm` after `kvm_create_vm`, asked for two vCPUs. -/
def kvm_two : kvm :=
  { (default : kvm) with dev_fd := 3, vm_fd := 4, ram_size := 512000000,
                         ram_start := 0x7f1000000000, vcpu_number := 2 }

/-- Kernel answers under which the guest memory `mmap` of `kvm_create_vm` fails. -/
def create_vm_mmap_fails : CreateVmEnv :=
  { create_vm_ret := 4, mmap_ret := MAP_FAILED, set_region_ret := 0 }

/-- Kernel answers under which `KVM_SET_USER_MEMORY_REGION` fails. -/
def create_vm_region_fails : CreateVmEnv :=
  { create_vm_ret := 4, mmap_ret := 0x7f1000000000, set_region_ret := -1 }

/-- Kernel answers for `kvm_init_vcpus`: vCPU 0 is created (descriptor 5, control page of 12288
bytes at `0x7f0000000000`); vCPU 1 gets descriptor 6 and then `KVM_GET_VCPU_MMAP_SIZE` fails. -/
def init_second_size_fails (i : Nat) : VcpuEnv :=
  if i = 0 then { create_vcpu_ret := 5, mmap_size_ret := 12288, mmap_ret := 0x7f0000000000 }
  else { create_vcpu_ret := 6, mmap_size_ret := -1, mmap_ret := 0 }

/-- The release calls of a list of vCPUs in array order: per vCPU, `munmap` of the control page
with its own recorded size, then `close` of its descriptor. -/
def vcpu_release_events : List vcpu → List Event
  | [] => []
  | v :: vs =>
    [Event.munmap v.kvm_run (to_u64 v.kvm_run_mmap_size), Event.close v.vcpu_fd]
      ++ vcpu_release_events vs

/-- Both events occur in the run and the first `a` comes before the first `b`. -/
def occurs_before (a b : Event) (t : List Event) : Bool :=
  decide (a ∈ t) && decide (b ∈ t) && decide (t.indexOf a < t.indexOf b)

/-- The teardown order in the words of the specification: for every vCPU the control page is
unmapped before its handle is closed, and that before the guest memory is unmapped; the guest
memory is unmapped before the VM handle is closed. -/
def teardown_order_spec (k : kvm) (t : List Event) : Bool :=
  k.vcpus.all (fun v =>
    occurs_before (Event.munmap v.kvm_run (to_u64 v.kvm_run_mmap_size)) (Event.close v.vcpu_fd) t
      && occurs_before (Event.close v.vcpu_fd) (Event.munmap k.ram_start k.ram_size) t)
  && occurs_before (Event.munmap k.ram_start k.ram_size) (Event.close k.vm_fd) t

/-! ## Exit dispatch -/

/-- C1: after a successful `KVM_RUN`, for every `exit_reason` value the dispatch of
`kvm_cpu_thread` either resumes the loop or leaves it; it leaves exactly when the value is
`KVM_EXIT_SHUTDOWN` or none of the six handled codes; `UNKNOWN`, `DEBUG`, `IO`, `MMIO`, `INTR`
resume; and the loop itself returns in the first case and goes on to the next `KVM_RUN` in the
second. -/
theorem exit_dispatch_terminal_iff (v : vcpu) (r : RunEnv) (rest : List RunEnv)
    (hret : 0 ≤ r.ret) :
    ((exit_dispatch v r).1 = Flow.resume ∨ (exit_dispatch v r).1 = Flow.leave) ∧
    ((exit_dispatch v r).1 = Flow.leave ↔
      (r.exit_reason = KVM_EXIT_SHUTDOWN ∨
        r.exit_reason ∉ [ KVM_EXIT_UNKNOWN, KVM_EXIT_DEBUG, KVM_EXIT_IO, KVM_EXIT_MMIO,
                         KVM_EXIT_INTR, KVM_EXIT_SHUTDOWN])) ∧
    (r.exit_reason ∈ [ KVM_EXIT_UNKNOWN, KVM_EXIT_DEBUG, KVM_EXIT_IO, KVM_EXIT_MMIO,
                      KVM_EXIT_INTR] → (exit_dispatch v r).1 = Flow.resume) ∧
    ((exit_dispatch v r).1 = Flow.leave →
      (kvm_cpu_thread_loop v (r :: rest)).1 = Outcome.returned 0) ∧
    ((exit_dispatch v r).1 = Flow.resume →
      (kvm_cpu_thread_loop v (r :: rest)).1 = (kvm_cpu_thread_loop v rest).1) := by
  have hnot : ¬ r.ret < 0 := not_lt.mpr hret
  have hloop : (kvm_cpu_thread_loop v (r :: rest)).1 =
      match (exit_dispatch v r).1 with
      | Flow.resume => (kvm_cpu_thread_loop v rest).1
      | Flow.leave => Outcome.returned 0 := by
    simp only [kvm_cpu_thread_loop, if_neg hnot]
    rcases hd : exit_dispatch v r with ⟨f, e⟩
    cases f <;> rfl
  simp only [hloop]
  unfold exit_dispatch
  simp only [KVM_EXIT_UNKNOWN, KVM_EXIT_DEBUG, KVM_EXIT_IO, KVM_EXIT_MMIO, KVM_EXIT_INTR,
    KVM_EXIT_SHUTDOWN, List.mem_cons, List.mem_singleton, List.not_mem_nil, or_false]
  by_cases h0 : r.exit_reason = 0
  · simp [h0]
  by_cases h4 : r.exit_reason = 4
  · simp [h4]
  by_cases h2 : r.exit_reason = 2
  · simp [h2]
  by_cases h6 : r.exit_reason = 6
  · simp [h6]
  by_cases h10 : r.exit_reason = 10
  · simp [h10]
  by_cases h8 : r.exit_reason = 8
  · simp [h8]
  simp [h0, h4, h2, h6, h10, h8]

/-- C1 witness: a successful `KVM_RUN` that reports `KVM_EXIT_IO`, followed by one that
reports `KVM_EXIT_SHUTDOWN`. -/
theorem exit_dispatch_terminal_iff_witness :
    0 ≤ (run_exit 2).ret ∧
    (exit_dispatch vcpu_sample (run_exit 2)).1 = Flow.resume ∧
    (kvm_cpu_thread_loop vcpu_sample [run_exit 2, run_exit 8]).1 =
      (kvm_cpu_thread_loop vcpu_sample [run_exit 8]).1 ∧
    (kvm_cpu_thread_loop vcpu_sample [run_exit 8]).1 = Outcome.returned 0 :=
  have h := exit_dispatch_terminal_iff vcpu_sample (run_exit 2) [run_exit 8] (by decide)
  ⟨by decide, h.2.2.1 (by decide), h.2.2.2.2 (h.2.2.1 (by decide)), by decide⟩

/-! ## Register reset -/

/-- When `kvm_reset_vcpu` returns, all three ioctls succeeded, the calls are the three ioctls in
order, and the snapshots are the ones computed by `reset_sregs` and `reset_regs`. -/
theorem kvm_reset_vcpu_returned (v w : vcpu) (env : ResetEnv)
    (h : (kvm_reset_vcpu v env).1 = Outcome.returned w) :
    w = { v with sregs := reset_sregs env.get_sregs_out, regs := reset_regs v.regs } ∧
    (kvm_reset_vcpu v env).2 =
      [Event.ioctl_KVM_GET_SREGS v.vcpu_fd,
       Event.ioctl_KVM_SET_SREGS v.vcpu_fd (reset_sregs env.get_sregs_out),
       Event.ioctl_KVM_SET_REGS v.vcpu_fd (reset_regs v.regs)] := by
  unfold kvm_reset_vcpu at h ⊢
  by_cases h1 : env.get_sregs_ret < 0
  · simp [h1] at h
  by_cases h2 : env.set_sregs_ret < 0
  · simp [h1, h2] at h
  by_cases h3 : env.set_regs_ret < 0
  · simp [h1, h2, h3] at h
  simp only [h1, h2, h3, if_false] at h ⊢
  injection h with h
  exact ⟨h.symm, rfl⟩

/-- The function `kvm_reset_vcpu` returns as soon as none of the three ioctls fails. -/
theorem kvm_reset_vcpu_succeeds (v : vcpu) (env : ResetEnv)
    (h1 : 0 ≤ env.get_sregs_ret) (h2 : 0 ≤ env.set_sregs_ret) (h3 : 0 ≤ env.set_regs_ret) :
    (kvm_reset_vcpu v env).1 =
      Outcome.returned { v with sregs := reset_sregs env.get_sregs_out,
                                regs := reset_regs v.regs } := by
  unfold kvm_reset_vcpu
  simp [not_lt.mpr h1, not_lt.mpr h2, not_lt.mpr h3]

/-- The function `kvm_reset_vcpu` calls `exit(1)` as soon as one of the three ioctls fails. -/
theorem kvm_reset_vcpu_fails (v : vcpu) (env : ResetEnv)
    (h : env.get_sregs_ret < 0 ∨ env.set_sregs_ret < 0 ∨ env.set_regs_ret < 0) :
    (kvm_reset_vcpu v env).1 = Outcome.exited 1 ∧ Event.exit 1 ∈ (kvm_reset_vcpu v env).2 := by
  unfold kvm_reset_vcpu
  by_cases h1 : env.get_sregs_ret < 0
  · simp [h1]
  by_cases h2 : env.set_sregs_ret < 0
  · simp [h1, h2]
  by_cases h3 : env.set_regs_ret < 0
  · simp [h1, h2, h3]
  · rcases h with h | h | h <;> contradiction

/-- C5: when `kvm_reset_vcpu` succeeds, whatever the vCPU id and the earlier register snapshot,
the registers handed to `KVM_SET_REGS` have `rip = 0`, `rbp = 0` and `rsp = 0xffffffff`
(`2 ^ 32 - 1`); two vCPUs with any ids and any earlier snapshots get the same three values. -/
theorem reset_regs_independent (v1 v2 w1 w2 : vcpu) (e1 e2 : ResetEnv)
    (h1 : (kvm_reset_vcpu v1 e1).1 = Outcome.returned w1)
    (h2 : (kvm_reset_vcpu v2 e2).1 = Outcome.returned w2) :
    regs_written (kvm_reset_vcpu v1 e1).2 = [w1.regs] ∧
    regs_written (kvm_reset_vcpu v2 e2).2 = [w2.regs] ∧
    w1.regs.rip = 0 ∧ w1.regs.rbp = 0 ∧ w1.regs.rsp = 0xffffffff ∧ w1.regs.rsp = 2 ^ 32 - 1 ∧
    w2.regs.rip = w1.regs.rip ∧ w2.regs.rsp = w1.regs.rsp ∧ w2.regs.rbp = w1.regs.rbp := by
  obtain ⟨hw1, ht1⟩ := kvm_reset_vcpu_returned v1 w1 e1 h1
  obtain ⟨hw2, ht2⟩ := kvm_reset_vcpu_returned v2 w2 e2 h2
  rw [ht1, ht2, hw1, hw2]
  simp [regs_written, reset_regs]

/-- C5 witness: two vCPUs with different ids and different earlier registers. -/
theorem reset_regs_independent_witness :
    vcpu_sample.vcpu_id ≠ vcpu_other.vcpu_id ∧ vcpu_sample.regs ≠ vcpu_other.regs ∧
    regs_written (kvm_reset_vcpu vcpu_sample reset_ok).2 =
      [{ vcpu_sample.regs with rflags := 2, rsp := 0xffffffff }] ∧
    (regs_written (kvm_reset_vcpu vcpu_other reset_ok).2).map (fun r => (r.rip, r.rsp, r.rbp)) =
      [(0, 0xffffffff, 0)] :=
  have h := reset_regs_independent vcpu_sample vcpu_other _ _ reset_ok reset_ok rfl rfl
  ⟨by decide, by decide, h.1, by rw [h.2.1]; rfl⟩

/-- C4: at the sample vCPU with every ioctl succeeding, `kvm_reset_vcpu` returns and the
`rflags` value handed to `KVM_SET_REGS` has the interrupt-enable flag (bit 9) clear. -/
theorem reset_interrupt_flag_counterexample :
    (∃ w, (kvm_reset_vcpu vcpu_sample reset_ok).1 = Outcome.returned w) ∧
    (regs_written (kvm_reset_vcpu vcpu_sample reset_ok).2).map
      (fun r => interrupt_flag r.rflags) = [false] :=
  ⟨⟨_, rfl⟩, by decide⟩

/-- C4 (amended): when `kvm_reset_vcpu` succeeds, the `rflags` value handed to `KVM_SET_REGS` is
`0x2`: bit 1 is the only bit set, and the interrupt-enable flag (bit 9, mask `0x200`) is
clear. -/
theorem reset_rflags_value (v w : vcpu) (env : ResetEnv)
    (h : (kvm_reset_vcpu v env).1 = Outcome.returned w) :
    regs_written (kvm_reset_vcpu v env).2 = [w.regs] ∧
    w.regs.rflags = 0x2 ∧ w.regs.rflags &&& 0x200 = 0 ∧ interrupt_flag w.regs.rflags = false := by
  obtain ⟨hw, ht⟩ := kvm_reset_vcpu_returned v w env h
  rw [ht, hw]
  have hbit : (2 : Nat) &&& 512 = 0 := by decide
  simp [regs_written, reset_regs, interrupt_flag, hbit]

/-- C4 witness: the second sample vCPU. -/
theorem reset_rflags_value_witness :
    (kvm_reset_vcpu vcpu_other reset_ok).1 =
      Outcome.returned { vcpu_other with sregs := reset_sregs sregs_zero,
                                         regs := reset_regs vcpu_other.regs } ∧
    (regs_written (kvm_reset_vcpu vcpu_other reset_ok).2).map (fun r => r.rflags) = [2] :=
  have h := reset_rflags_value vcpu_other _ reset_ok rfl
  ⟨rfl, by rw [h.1]; rfl⟩

/-- C3: at the sample vCPU, with `KVM_GET_SREGS` reporting the power-on segment state,
`kvm_reset_vcpu` returns, and in the snapshot handed to `KVM_SET_SREGS` the bases of `cs`, `ss`,
`ds`, `es`, `fs` are `0x100000` (`CODE_START * 16`) while the base of `gs` is still the 0 that
`KVM_GET_SREGS` reported; the six selectors are 0, the value `CODE_START = 0x10000` leaves in a
16-bit field. -/
theorem reset_gs_base_not_assigned :
    (∃ w, (kvm_reset_vcpu vcpu_sample reset_power_on).1 = Outcome.returned w) ∧
    (sregs_written (kvm_reset_vcpu vcpu_sample reset_power_on).2).map
      (fun s => [s.cs.base, s.ss.base, s.ds.base, s.es.base, s.fs.base, s.gs.base]) =
      [[0x100000, 0x100000, 0x100000, 0x100000, 0x100000, 0]] ∧
    (sregs_written (kvm_reset_vcpu vcpu_sample reset_power_on).2).map
      (fun s => [s.cs.selector, s.ss.selector, s.ds.selector, s.es.selector, s.fs.selector,
                 s.gs.selector]) = [[0, 0, 0, 0, 0, 0]] ∧
    CODE_START * 16 = 0x100000 ∧ CODE_START = 0x10000 :=
  ⟨⟨_, rfl⟩, by decide, by decide, by decide, by decide⟩

/-- C10: on the path of `main` (VM created with `RAM_SIZE`, a four-byte image loaded, vCPU
reset), `load_binary` puts the first byte of the image at guest-physical address 0, while the
reset state has `cs.base = 0x100000` and `rip = 0`, so the first fetch is at `0x100000`; and
the selector stored in `cs` is 0, so 16 times the selector is 0, not `cs.base`. -/
theorem reset_entry_misses_image :
    (kvm_create_vm kvm_fresh RAM_SIZE create_vm_ok).1 = 0 ∧
    (first_store (load_binary (kvm_create_vm kvm_fresh RAM_SIZE create_vm_ok).2.1 load_ok).2).bind
      (guest_phys_of (kvm_create_vm kvm_fresh RAM_SIZE create_vm_ok).2.1.mem) = some 0 ∧
    (∃ w, (kvm_reset_vcpu vcpu_sample reset_power_on).1 = Outcome.returned w ∧
      w.sregs.cs.base + w.regs.rip = 0x100000 ∧
      w.sregs.cs.selector = 0 ∧
      16 * w.sregs.cs.selector ≠ w.sregs.cs.base) ∧
    (sregs_written (kvm_reset_vcpu vcpu_sample reset_power_on).2).map
      (fun s => (s.cs.selector, s.cs.base)) = [(0, 0x100000)] ∧
    (regs_written (kvm_reset_vcpu vcpu_sample reset_power_on).2).map (fun r => r.rip) = [0] :=
  ⟨by decide, by decide, ⟨_, rfl, by decide, by decide, by decide⟩, by decide, by decide⟩

/-! ## Failures inside a vCPU thread -/

/-- When `kvm_reset_vcpu` returns, `kvm_cpu_thread` continues with the run loop. -/
theorem kvm_cpu_thread_of_returned (v w : vcpu) (env : ResetEnv) (runs : List RunEnv)
    (h : (kvm_reset_vcpu v env).1 = Outcome.returned w) :
    kvm_cpu_thread v env runs =
      ((kvm_cpu_thread_loop w runs).1, (kvm_reset_vcpu v env).2 ++ (kvm_cpu_thread_loop w runs).2) := by
  unfold kvm_cpu_thread
  rcases hr : kvm_reset_vcpu v env with ⟨o, t⟩
  rw [hr] at h
  simp only at h
  subst h
  rfl

/-- When `kvm_reset_vcpu` calls `exit`, so does `kvm_cpu_thread`, with the same calls. -/
theorem kvm_cpu_thread_of_exited (v : vcpu) (env : ResetEnv) (runs : List RunEnv) (status : Int)
    (h : (kvm_reset_vcpu v env).1 = Outcome.exited status) :
    kvm_cpu_thread v env runs = (Outcome.exited status, (kvm_reset_vcpu v env).2) := by
  unfold kvm_cpu_thread
  rcases hr : kvm_reset_vcpu v env with ⟨o, t⟩
  rw [hr] at h
  simp only at h
  subst h
  rfl

/-- A failing `KVM_RUN` after any number of resumed exits makes the run loop call `exit(1)`. -/
theorem kvm_cpu_thread_loop_run_fails (w : vcpu) (pre : List RunEnv) (r : RunEnv)
    (rest : List RunEnv)
    (hpre : ∀ p ∈ pre, 0 ≤ p.ret ∧ (exit_dispatch w p).1 = Flow.resume) (hr : r.ret < 0) :
    (kvm_cpu_thread_loop w (pre ++ r :: rest)).1 = Outcome.exited 1 ∧
    Event.exit 1 ∈ (kvm_cpu_thread_loop w (pre ++ r :: rest)).2 := by
  induction pre with
  | nil => simp [kvm_cpu_thread_loop, hr]
  | cons p ps ih =>
    have hp := hpre p (List.mem_cons_self p ps)
    have ih2 := ih (fun q hq => hpre q (List.mem_cons_of_mem p hq))
    have hnot : ¬ p.ret < 0 := not_lt.mpr hp.1
    rcases hd : exit_dispatch w p with ⟨f, e⟩
    have hf : f = Flow.resume := by rw [hd] at hp; exact hp.2
    subst hf
    have hstep : kvm_cpu_thread_loop w (p :: (ps ++ r :: rest)) =
        ((kvm_cpu_thread_loop w (ps ++ r :: rest)).1,
         [Event.printf "KVM start run at cpu %d\n" [w.vcpu_id], Event.ioctl_KVM_RUN w.vcpu_fd]
           ++ e ++ (kvm_cpu_thread_loop w (ps ++ r :: rest)).2) := by
      simp only [kvm_cpu_thread_loop, if_neg hnot, hd]
    rw [List.cons_append, hstep]
    exact ⟨ih2.1, List.mem_append_right _ ih2.2⟩

/-- C8: at the sample vCPU with a failing `KVM_GET_SREGS`, and with a failing first `KVM_RUN`,
the thread function does not return: the outcome is `exit(1)`, which ends the process. -/
theorem thread_failure_counterexample :
    (kvm_cpu_thread vcpu_sample reset_get_fails []).1 = Outcome.exited 1 ∧
    (kvm_cpu_thread vcpu_sample reset_get_fails []).1 ≠ Outcome.returned 0 ∧
    (kvm_cpu_thread vcpu_sample reset_get_fails []).2 =
      [Event.ioctl_KVM_GET_SREGS 5, Event.perror "can not get sregs\n", Event.exit 1] ∧
    (kvm_cpu_thread vcpu_sample reset_ok [run_fails]).1 = Outcome.exited 1 ∧
    (kvm_cpu_thread vcpu_sample reset_ok [run_fails]).1 ≠ Outcome.returned 0 :=
  ⟨by decide, by decide, by decide, by decide, by decide⟩

/-- C8 (amended): a failure inside one vCPU's thread ends the whole process: when
`KVM_GET_SREGS`, `KVM_SET_SREGS` or `KVM_SET_REGS` fails in `kvm_reset_vcpu`, or `KVM_RUN` fails
in `kvm_cpu_thread` (at the first run or after any number of resumed exits), the code calls
`exit(1)` and the thread function does not return. -/
theorem thread_failure_exits_process (v : vcpu) (env : ResetEnv) (runs : List RunEnv) :
    ((env.get_sregs_ret < 0 ∨ env.set_sregs_ret < 0 ∨ env.set_regs_ret < 0) →
      (kvm_reset_vcpu v env).1 = Outcome.exited 1 ∧
      (kvm_cpu_thread v env runs).1 = Outcome.exited 1 ∧
      Event.exit 1 ∈ (kvm_cpu_thread v env runs).2) ∧
    (∀ (w : vcpu) (pre : List RunEnv) (r : RunEnv) (rest : List RunEnv),
      (kvm_reset_vcpu v env).1 = Outcome.returned w →
      runs = pre ++ r :: rest →
      (∀ p ∈ pre, 0 ≤ p.ret ∧ (exit_dispatch w p).1 = Flow.resume) →
      r.ret < 0 →
      (kvm_cpu_thread v env runs).1 = Outcome.exited 1 ∧
      Event.exit 1 ∈ (kvm_cpu_thread v env runs).2) := by
  constructor
  · intro h
    obtain ⟨h1, h2⟩ := kvm_reset_vcpu_fails v env h
    rw [kvm_cpu_thread_of_exited v env runs 1 h1]
    exact ⟨h1, rfl, h2⟩
  · intro w pre r rest hw hruns hpre hr
    obtain ⟨h1, h2⟩ := kvm_cpu_thread_loop_run_fails w pre r rest hpre hr
    rw [kvm_cpu_thread_of_returned v w env runs hw, hruns]
    exact ⟨h1, List.mem_append_right _ h2⟩

/-- C8 witness: `KVM_GET_SREGS` fails; and `KVM_RUN` fails after one `KVM_EXIT_IO`. -/
theorem thread_failure_exits_process_witness :
    reset_get_fails.get_sregs_ret < 0 ∧
    (kvm_cpu_thread vcpu_sample reset_get_fails [run_exit 2]).1 = Outcome.exited 1 ∧
    run_fails.ret < 0 ∧
    (kvm_cpu_thread vcpu_sample reset_ok [run_exit 2, run_fails]).1 = Outcome.exited 1 :=
  ⟨by decide,
   ((thread_failure_exits_process vcpu_sample reset_get_fails [run_exit 2]).1
      (Or.inl (by decide))).2.1,
   by decide,
   ((thread_failure_exits_process vcpu_sample reset_ok [run_exit 2, run_fails]).2
      _ [run_exit 2] run_fails [] rfl rfl
      (by intro p hp; simp only [List.mem_singleton] at hp; subst hp; exact ⟨by decide, by decide⟩)
      (by decide)).1⟩

/-! ## Teardown -/

/-- The loop of `kvm_clean_vcpus` started at index `i` with exactly the iterations that remain
in the array releases the vCPUs from `i` on, in array order. -/
theorem kvm_clean_vcpus_loop_eq (vcpus : List vcpu) (remaining i : Nat)
    (h : i + remaining = vcpus.length) :
    kvm_clean_vcpus_loop vcpus i remaining = some (vcpu_release_events (vcpus.drop i)) := by
  induction remaining generalizing i with
  | zero =>
    have hi : vcpus.length ≤ i := by omega
    simp [kvm_clean_vcpus_loop, List.drop_eq_nil_of_le hi, vcpu_release_events]
  | succ n ih =>
    have hi : i < vcpus.length := by omega
    have hget : vcpus[i]? = some vcpus[i] := List.getElem?_eq_getElem hi
    have hdrop : vcpus.drop i = vcpus[i] :: vcpus.drop (i + 1) := List.drop_eq_getElem_cons hi
    have hrec := ih (i + 1) (by omega)
    simp only [kvm_clean_vcpus_loop, hget, hrec, hdrop, vcpu_release_events]

/-- C2: with one vCPU, `kvm_clean_vm` closes the VM handle first, then unmaps guest memory, then
releases the vCPU; the order of the specification does not hold, and it does not hold with no
vCPU either. -/
theorem kvm_clean_vm_order_counterexample :
    kvm_clean_vm kvm_one =
      some [Event.close 4, Event.munmap 0x7f1000000000 512000000,
            Event.munmap 0x7f0000000000 12288, Event.close 5] ∧
    (kvm_clean_vm kvm_one).map (teardown_order_spec kvm_one) = some false ∧
    kvm_clean_vm kvm_none = some [Event.close 4, Event.munmap 0x7f1000000000 512000000] ∧
    (kvm_clean_vm kvm_none).map (teardown_order_spec kvm_none) = some false :=
  ⟨by decide, by decide, by decide, by decide⟩

/-- C2 (amended): for every VM state whose array holds `vcpu_number` vCPUs (any number, zero
included), `kvm_clean_vm` first closes the VM handle, then unmaps the guest memory region, then
for every vCPU in array order unmaps its control page and closes its handle. -/
theorem kvm_clean_vm_order (k : kvm) (h : (k.vcpus.length : Int) = k.vcpu_number) :
    kvm_clean_vm k =
      some ([Event.close k.vm_fd, Event.munmap k.ram_start k.ram_size]
        ++ vcpu_release_events k.vcpus) := by
  have hn : k.vcpu_number.toNat = k.vcpus.length := by omega
  have hloop := kvm_clean_vcpus_loop_eq k.vcpus k.vcpus.length 0 (by omega)
  simp only [kvm_clean_vm, kvm_clean_vcpus, hn, hloop, List.drop_zero]
  rfl

/-- C2 witness: a VM state with two vCPUs. -/
theorem kvm_clean_vm_order_witness :
    kvm_clean_vm { kvm_one with vcpus := [vcpu_sample, vcpu_other], vcpu_number := 2 } =
      some [Event.close 4, Event.munmap 0x7f1000000000 512000000,
            Event.munmap 0x7f0000000000 12288, Event.close 5,
            Event.munmap 0x7f0000004000 12288, Event.close 9] :=
  kvm_clean_vm_order { kvm_one with vcpus := [vcpu_sample, vcpu_other], vcpu_number := 2 }
    (by decide)

/-! ## VM creation -/

/-- C6: when the guest memory `mmap` fails, `kvm_create_vm` returns -1 without closing the VM
handle 4; when `KVM_SET_USER_MEMORY_REGION` fails, it returns the failure without unmapping the
guest memory and without closing the VM handle. -/
theorem kvm_create_vm_leak_counterexample :
    kvm_create_vm kvm_fresh RAM_SIZE create_vm_mmap_fails =
      (-1, { kvm_fresh with vm_fd := 4, ram_size := 512000000, ram_start := MAP_FAILED },
       [Event.ioctl_KVM_CREATE_VM 3, Event.mmap 512000000 (-1),
        Event.perror "can not mmap ram"]) ∧
    Event.close 4 ∉ (kvm_create_vm kvm_fresh RAM_SIZE create_vm_mmap_fails).2.2 ∧
    (kvm_create_vm kvm_fresh RAM_SIZE create_vm_region_fails).1 = -1 ∧
    (kvm_create_vm kvm_fresh RAM_SIZE create_vm_region_fails).2.2 =
      [Event.ioctl_KVM_CREATE_VM 3, Event.mmap 512000000 (-1),
       Event.ioctl_KVM_SET_USER_MEMORY_REGION 4
         { slot := 0, flags := 0, guest_phys_addr := 0, memory_size := 512000000,
           userspace_addr := 0x7f1000000000 },
       Event.perror "can not set user memory region"] ∧
    Event.munmap 0x7f1000000000 512000000 ∉
      (kvm_create_vm kvm_fresh RAM_SIZE create_vm_region_fails).2.2 ∧
    Event.close 4 ∉ (kvm_create_vm kvm_fresh RAM_SIZE create_vm_region_fails).2.2 :=
  ⟨by decide, by decide, by decide, by decide, by decide, by decide⟩

/-- C6 (amended): whenever `kvm_create_vm` returns a failure it has released nothing: it made no
`close` and no `munmap` call; after a failed guest memory mapping the VM handle obtained by
`KVM_CREATE_VM` is still open at the return, and after a failed `KVM_SET_USER_MEMORY_REGION`
the guest memory is still mapped and the VM handle still open. -/
theorem kvm_create_vm_failure_releases_nothing (k : kvm) (ram_size : Int) (env : CreateVmEnv)
    (h : (kvm_create_vm k ram_size env).1 < 0) :
    (∀ e ∈ (kvm_create_vm k ram_size env).2.2, is_release e = false) ∧
    (∀ fd, Event.close fd ∉ (kvm_create_vm k ram_size env).2.2) ∧
    (∀ addr len, Event.munmap addr len ∉ (kvm_create_vm k ram_size env).2.2) ∧
    (kvm_create_vm k ram_size env).2.1.vm_fd = env.create_vm_ret ∧
    (env.create_vm_ret < 0 ∨
     (0 ≤ env.create_vm_ret ∧ env.mmap_ret = MAP_FAILED ∧
       (kvm_create_vm k ram_size env).1 = -1) ∨
     (0 ≤ env.create_vm_ret ∧ env.mmap_ret ≠ MAP_FAILED ∧ env.set_region_ret < 0 ∧
       (kvm_create_vm k ram_size env).1 = env.set_region_ret ∧
       (kvm_create_vm k ram_size env).2.1.ram_start = env.mmap_ret ∧
       Event.mmap (to_u64 ram_size) (-1) ∈ (kvm_create_vm k ram_size env).2.2)) := by
  unfold kvm_create_vm at h ⊢
  by_cases h1 : env.create_vm_ret < 0
  · simp [h1, is_release]
  by_cases h2 : env.mmap_ret = MAP_FAILED
  · simp [h1, h2, is_release]
    omega
  by_cases h3 : env.set_region_ret < 0
  · simp [h1, h2, h3, is_release]
    omega
  · simp [h1, h2, h3] at h

/-- C6 witness: the `mmap` failure and the registration failure. -/
theorem kvm_create_vm_failure_releases_nothing_witness :
    (kvm_create_vm kvm_fresh RAM_SIZE create_vm_mmap_fails).1 < 0 ∧
    (∀ e ∈ (kvm_create_vm kvm_fresh RAM_SIZE create_vm_mmap_fails).2.2, is_release e = false) ∧
    (kvm_create_vm kvm_fresh RAM_SIZE create_vm_mmap_fails).2.1.vm_fd = 4 :=
  have h := kvm_create_vm_failure_releases_nothing kvm_fresh RAM_SIZE create_vm_mmap_fails
    (by decide)
  ⟨by decide, h.1, h.2.2.2.1⟩

/-- C9: for every `int` value of `ram_size`, when `kvm_create_vm` succeeds the one region
descriptor it registered has slot 0, guest-physical base 0, `memory_size` equal to the requested
size (the `int` converted to `__u64`, which is the size itself for a non-negative value) and
`userspace_addr` equal to the base of the mapping just made, which was asked for with that
length; `kvm->ram_size` and `kvm->ram_start` hold the same size and base. -/
theorem kvm_create_vm_region (k : kvm) (ram_size : Int) (env : CreateVmEnv)
    (hint : -2 ^ 31 ≤ ram_size ∧ ram_size < 2 ^ 31)
    (h : 0 ≤ (kvm_create_vm k ram_size env).1) :
    regions_registered (kvm_create_vm k ram_size env).2.2 =
      [(kvm_create_vm k ram_size env).2.1.mem] ∧
    (kvm_create_vm k ram_size env).2.1.mem.slot = 0 ∧
    (kvm_create_vm k ram_size env).2.1.mem.guest_phys_addr = 0 ∧
    (kvm_create_vm k ram_size env).2.1.mem.memory_size = to_u64 ram_size ∧
    (0 ≤ ram_size → ((kvm_create_vm k ram_size env).2.1.mem.memory_size : Int) = ram_size) ∧
    (kvm_create_vm k ram_size env).2.1.mem.userspace_addr = env.mmap_ret ∧
    Event.mmap (to_u64 ram_size) (-1) ∈ (kvm_create_vm k ram_size env).2.2 ∧
    (kvm_create_vm k ram_size env).2.1.ram_size =
      (kvm_create_vm k ram_size env).2.1.mem.memory_size ∧
    (kvm_create_vm k ram_size env).2.1.ram_start =
      (kvm_create_vm k ram_size env).2.1.mem.userspace_addr ∧
    (kvm_create_vm k ram_size env).2.1.vm_fd = env.create_vm_ret := by
  have hconv : 0 ≤ ram_size → ((to_u64 ram_size : Nat) : Int) = ram_size := by
    intro h0
    unfold to_u64
    have hnn : (0 : Int) ≤ ram_size % 2 ^ 64 := Int.emod_nonneg _ (by norm_num)
    rw [Int.toNat_of_nonneg hnn]
    exact Int.emod_eq_of_lt h0 (by omega)
  unfold kvm_create_vm at h ⊢
  by_cases h1 : env.create_vm_ret < 0
  · simp [h1] at h
  by_cases h2 : env.mmap_ret = MAP_FAILED
  · simp [h1, h2] at h
  by_cases h3 : env.set_region_ret < 0
  · simp only [h1, h2, h3, if_true, if_false] at h
    omega
  · simp only [h1, h2, h3, if_false]
    simp [regions_registered]
    exact hconv

/-- C9 witness: the call `kvm_create_vm(kvm, RAM_SIZE)` of `main`, every step succeeding. -/
theorem kvm_create_vm_region_witness :
    0 ≤ (kvm_create_vm kvm_fresh RAM_SIZE create_vm_ok).1 ∧
    regions_registered (kvm_create_vm kvm_fresh RAM_SIZE create_vm_ok).2.2 =
      [{ slot := 0, flags := 0, guest_phys_addr := 0, memory_size := 512000000,
         userspace_addr := 0x7f1000000000 }] ∧
    (kvm_create_vm kvm_fresh RAM_SIZE create_vm_ok).2.1.ram_size = 512000000 ∧
    (kvm_create_vm kvm_fresh RAM_SIZE create_vm_ok).2.1.ram_start = 0x7f1000000000 :=
  have h := kvm_create_vm_region kvm_fresh RAM_SIZE create_vm_ok (by decide) (by decide)
  ⟨by decide, by rw [h.1]; decide, by rw [h.2.2.2.2.2.2.2.1, h.2.2.2.1]; decide,
   by rw [h.2.2.2.2.2.2.2.2.1, h.2.2.2.2.2.1]; decide⟩

/-! ## vCPU creation -/

/-- C7: with `vcpu_number = 2`, vCPU 0 created with a control page of 12288 bytes and
`KVM_GET_VCPU_MMAP_SIZE` failing (-1) for vCPU 1, `kvm_init_vcpus` returns `NULL` after closing
descriptor 6 and descriptor 5, but the `munmap` of vCPU 0's control page is made with the length
read from `vcpus[1]` (`(size_t) -1`), not with the 12288 recorded for vCPU 0. -/
theorem kvm_init_vcpus_unwind_wrong_size :
    kvm_init_vcpus kvm_two 0x1000 0x2000 (fun _ => default) init_second_size_fails =
      (Outcome.returned none,
       [Event.malloc,
        Event.ioctl_KVM_CREATE_VCPU 4 0, Event.ioctl_KVM_GET_VCPU_MMAP_SIZE 3,
        Event.mmap 12288 5,
        Event.ioctl_KVM_CREATE_VCPU 4 1, Event.ioctl_KVM_GET_VCPU_MMAP_SIZE 3,
        Event.perror "can not get vcpu mmsize",
        Event.close 6,
        Event.munmap 0x7f0000000000 (2 ^ 64 - 1), Event.close 5,
        Event.perror "can not initialize all vcpus", Event.free]) ∧
    Event.munmap 0x7f0000000000 12288 ∉
      (kvm_init_vcpus kvm_two 0x1000 0x2000 (fun _ => default) init_second_size_fails).2 :=
  ⟨by decide, by decide⟩

end KvmSample
